import Mathlib

/-!
Verification development for the cosmic1 balloon telemetry firmware.

This file is a shallow embedding of the link-layer packet stack:

* namespace `PacketType` — the wire type codes of `include/common_types.h`
  (an `enum class : uint8_t` in which several enumerators share a value);
* namespace `LoRaManager` — the five-level priority transmit queue, the
  send/ack/retry machine (`processQueue`, `handleAck`, `handleNack`), the
  flat packet codec (`serializePacket` / `deserializePacket`) and the
  adaptive spreading-factor control of `src/lora_comm.cpp`;
* namespace `PacketHandler` — the byte-stream receive parser
  (`processReceivedByte` / `processIncomingData`), the CRC8/CRC16 routines
  and the heartbeat sequence counter of `src/packet_handler.cpp`.

Machine integers are modelled as `Nat` (unsigned) or `Int` (signed) with
explicit truncation (`% 256`, `% 65536`) exactly where the C code's types
truncate.  Structs that the C code `memcpy`s to and from byte buffers are
modelled at the byte level for the target ABI (ESP32-S3: little-endian,
`uint16_t` aligned to 2 bytes), so `sizeof(PacketHeader)` in
`packet_handler` is 8 (7 field bytes + 1 trailing alignment pad) and
`sizeof(LoRaPacketHeader)` in `lora_comm` is 12 (no padding).
-/

/-!
Wire type codes from `include/common_types.h`.  The C `enum class
PacketType : uint8_t` deliberately assigns the same underlying value to
several enumerators (e.g. `GPS = 0x02 = TELEMETRY`); each enumerator is
modelled as its `Nat` code.
-/
namespace PacketType

def HEARTBEAT : Nat := 0x01
def TELEMETRY : Nat := 0x02
def GPS_DATA : Nat := 0x03
def CAMERA_DATA : Nat := 0x04
def ALERT : Nat := 0x05
def COMMAND_ACK : Nat := 0x06
def STATUS : Nat := 0x07
def DEBUG : Nat := 0x08
def GPS : Nat := 0x02
def CAMERA_THUMB : Nat := 0x03
def CAMERA_FULL : Nat := 0x04
def ACK : Nat := 0x06
def NACK : Nat := 0x07
def PING : Nat := 0x08
def PONG : Nat := 0x09
def EMERGENCY : Nat := 0xFF

end PacketType

namespace LoRaManager

/-- Models `LoRaManager::MAX_QUEUE_SIZE` (lora_comm.h). -/
def MAX_QUEUE_SIZE : Nat := 10

/-- Models `LoRaManager::MAX_RETRIES` (lora_comm.h). -/
def MAX_RETRIES : Nat := 3

/-- Models `LoRaManager::ACK_TIMEOUT_MS` (lora_comm.h). -/
def ACK_TIMEOUT_MS : Nat := 2000

/-- Models `MAX_PACKET_SIZE` (balloon_config.h). -/
def MAX_PACKET_SIZE : Nat := 240

/-- One entry of a priority queue (`struct QueuedPacket`, lora_comm.h),
restricted to the fields the queue machine reads or writes:
`packet.sequenceNumber`, `transmitAttempts`, `lastTransmitTime` and
`waitingForAck`.  The stored `priority` field always equals the index of
the queue holding the entry (`sendPacket` sets it from the same argument
that selects the queue), so it is kept implicit; `enqueueTime` is written
by `sendPacket` but never read. -/
structure QueuedPacket where
  sequenceNumber : Nat
  transmitAttempts : Nat
  lastTransmitTime : Nat
  waitingForAck : Bool
deriving DecidableEq, Repr

/-- The queue-machine state of a `LoRaManager`: the five bounded FIFO
priority queues (`priorityQueues` together with `queueSizes`; index 0 is
EMERGENCY, index 4 is STATUS) and the four error counters. -/
structure LoRaState where
  queues : Fin 5 → List QueuedPacket
  transmitErrorCount : Nat
  receiveErrorCount : Nat
  crcErrorCount : Nat
  ackTimeoutCount : Nat

/-- State after the constructor `LoRaManager::LoRaManager()`: all queues
empty, all counters zero. -/
def initialLoRaState : LoRaState :=
  { queues := fun _ => []
    transmitErrorCount := 0
    receiveErrorCount := 0
    crcErrorCount := 0
    ackTimeoutCount := 0 }

/-- Replace one priority queue, leaving the other four and the counters
unchanged (in the C code: an in-place mutation of `priorityQueues[i]` and
`queueSizes[i]`). -/
def setQueue (st : LoRaState) (i : Fin 5) (q : List QueuedPacket) : LoRaState :=
  { st with queues := fun j => if j = i then q else st.queues j }

/-- Overwrite the head entry of a queue (the C code mutates
`priorityQueues[i][0]` through the pointer returned by `getNextPacket`). -/
def replaceHead (q : List QueuedPacket) (qp : QueuedPacket) : List QueuedPacket :=
  match q with
  | [] => []
  | _ :: rest => qp :: rest

/-- Models `LoRaManager::addToQueueInternal` (lora_comm.cpp:256-273): if the
entry's priority level is not full, append at the tail; otherwise shift
the level's entries down one slot (dropping the oldest, index 0) and put
the new entry in the last slot.  No counter is touched in either branch
(the overflow branch only emits a debug print). -/
def addToQueueInternal (st : LoRaState) (priorityIndex : Fin 5)
    (queuedPacket : QueuedPacket) : LoRaState :=
  let q := st.queues priorityIndex
  if q.length < MAX_QUEUE_SIZE then
    setQueue st priorityIndex (q ++ [queuedPacket])
  else
    setQueue st priorityIndex (q.tail ++ [queuedPacket])

/-- Models `LoRaManager::sendPacket` (lora_comm.cpp:204-221): build a
`QueuedPacket` with `transmitAttempts = 0`, `lastTransmitTime = 0`,
`waitingForAck = false`, and enqueue it at the given priority.  Note the
function copies `packet.sequenceNumber` unchanged — it never assigns a
fresh sequence number (`nextSequenceNumber` is initialised in the
constructor but never used). -/
def sendPacket (st : LoRaState) (sequenceNumber : Nat) (priorityIndex : Fin 5) :
    LoRaState :=
  addToQueueInternal st priorityIndex
    { sequenceNumber := sequenceNumber
      transmitAttempts := 0
      lastTransmitTime := 0
      waitingForAck := false }

/-- Models `LoRaManager::getNextPacket` (lora_comm.cpp:335-344): scan the queues
in priority order 0 (EMERGENCY) … 4 (STATUS) and return (a pointer to) the
head of the first non-empty one, here modelled as the queue index paired
with the head entry. -/
def getNextPacket (st : LoRaState) : Option (Fin 5 × QueuedPacket) :=
  match st.queues 0 with
  | qp :: _ => some (0, qp)
  | [] =>
    match st.queues 1 with
    | qp :: _ => some (1, qp)
    | [] =>
      match st.queues 2 with
      | qp :: _ => some (2, qp)
      | [] =>
        match st.queues 3 with
        | qp :: _ => some (3, qp)
        | [] =>
          match st.queues 4 with
          | qp :: _ => some (4, qp)
          | [] => none

/-- Models `LoRaManager::removePacketFromQueue` (lora_comm.cpp:346-355): shift
the entries after `index` down by one and decrement the level's size. -/
def removePacketFromQueue (st : LoRaState) (priorityIndex : Fin 5) (index : Nat) :
    LoRaState :=
  setQueue st priorityIndex ((st.queues priorityIndex).eraseIdx index)

/-- The tail of `LoRaManager::processQueue` (lora_comm.cpp:299-332), run
on the packet selected by `getNextPacket` (which is the head of queue `i`,
so the pointer-difference `index` computed by the C code is 0): if the
retry limit is reached, remove the packet and count a transmit error;
otherwise attempt transmission (`transmitOk` is the Boolean returned by
`transmitPacket`, i.e. the external radio driver): on success increment
`transmitAttempts`, stamp `lastTransmitTime := now` and set
`waitingForAck`; on failure only increment `transmitErrorCount`. -/
def processQueueTransmit (st : LoRaState) (i : Fin 5) (nextPacket : QueuedPacket)
    (now : Nat) (transmitOk : Bool) : LoRaState × Bool :=
  if MAX_RETRIES ≤ nextPacket.transmitAttempts then
    let st1 := removePacketFromQueue st i 0
    ({ st1 with transmitErrorCount := st1.transmitErrorCount + 1 }, false)
  else if transmitOk then
    let qp := { nextPacket with
                transmitAttempts := nextPacket.transmitAttempts + 1
                lastTransmitTime := now
                waitingForAck := true }
    (setQueue st i (replaceHead (st.queues i) qp), true)
  else
    ({ st with transmitErrorCount := st.transmitErrorCount + 1 }, false)

/-- The ACK-timeout branch of `processQueue` (lora_comm.cpp:287-293):
clear `waitingForAck` on the head of queue `i` (mutated in place through
the `getNextPacket` pointer) and count an ACK timeout. -/
def ackTimeoutClear (st : LoRaState) (i : Fin 5) (nextPacket : QueuedPacket) :
    LoRaState :=
  { setQueue st i (replaceHead (st.queues i)
      { nextPacket with waitingForAck := false }) with
    ackTimeoutCount := st.ackTimeoutCount + 1 }

/-- Models `LoRaManager::processQueue` (lora_comm.cpp:275-333) for a tick in
which the radio delivered no incoming packet (so the initial
`processIncomingPacket()` call is a no-op; incoming ACK/NACK frames are
modelled by the separate `handleAckSeq` / `handleNackSeq` operations).
`now` is the value of `millis()`; the `uint32_t` subtraction
`millis() - lastTransmitTime` is modelled by truncated `Nat` subtraction,
which agrees with the C code whenever the clock is monotone and has not
wrapped.  Returns the new state and whether a packet was transmitted. -/
def processQueue (st : LoRaState) (now : Nat) (transmitOk : Bool) :
    LoRaState × Bool :=
  match getNextPacket st with
  | none => (st, false)
  | some (i, nextPacket) =>
    if nextPacket.waitingForAck then
      if ACK_TIMEOUT_MS < now - nextPacket.lastTransmitTime then
        processQueueTransmit (ackTimeoutClear st i nextPacket) i
          { nextPacket with waitingForAck := false } now transmitOk
      else (st, false)
    else processQueueTransmit st i nextPacket now transmitOk

/-- The match condition of the ACK/NACK search loops (lora_comm.cpp:496,
529): same sequence number and currently awaiting an acknowledgement. -/
def matchesAck (seq : Nat) (qp : QueuedPacket) : Bool :=
  qp.sequenceNumber == seq && qp.waitingForAck

/-- Remove the first entry matching `matchesAck` from one queue (the inner
loop of `LoRaManager::handleAck` combined with `removePacketFromQueue`). -/
def removeFirstWaiting (seq : Nat) : List QueuedPacket → List QueuedPacket
  | [] => []
  | qp :: rest =>
    if matchesAck seq qp then rest
    else qp :: removeFirstWaiting seq rest

/-- Clear `waitingForAck` on the first entry matching `matchesAck` in one
queue (the inner loop of `LoRaManager::handleNack`). -/
def clearFirstWaiting (seq : Nat) : List QueuedPacket → List QueuedPacket
  | [] => []
  | qp :: rest =>
    if matchesAck seq qp then { qp with waitingForAck := false } :: rest
    else qp :: clearFirstWaiting seq rest

/-- Models `LoRaManager::handleAck` (lora_comm.cpp:483-515) after the ACK's
sequence number has been parsed from its payload: scan the queues in
priority order, remove the first entry that matches the sequence number
and is awaiting an ACK, and return.  (The C code then feeds the ACK's
signal-quality bytes to `adaptTransmissionSettings`, modelled separately
by the pure function of the same name.) -/
def handleAckSeq (st : LoRaState) (seq : Nat) : LoRaState :=
  if (st.queues 0).any (matchesAck seq) then
    setQueue st 0 (removeFirstWaiting seq (st.queues 0))
  else if (st.queues 1).any (matchesAck seq) then
    setQueue st 1 (removeFirstWaiting seq (st.queues 1))
  else if (st.queues 2).any (matchesAck seq) then
    setQueue st 2 (removeFirstWaiting seq (st.queues 2))
  else if (st.queues 3).any (matchesAck seq) then
    setQueue st 3 (removeFirstWaiting seq (st.queues 3))
  else if (st.queues 4).any (matchesAck seq) then
    setQueue st 4 (removeFirstWaiting seq (st.queues 4))
  else st

/-- Models `LoRaManager::handleNack` (lora_comm.cpp:517-540) after the NACK's
sequence number has been parsed: scan the queues in priority order and
clear `waitingForAck` on the first matching awaiting entry. -/
def handleNackSeq (st : LoRaState) (seq : Nat) : LoRaState :=
  if (st.queues 0).any (matchesAck seq) then
    setQueue st 0 (clearFirstWaiting seq (st.queues 0))
  else if (st.queues 1).any (matchesAck seq) then
    setQueue st 1 (clearFirstWaiting seq (st.queues 1))
  else if (st.queues 2).any (matchesAck seq) then
    setQueue st 2 (clearFirstWaiting seq (st.queues 2))
  else if (st.queues 3).any (matchesAck seq) then
    setQueue st 3 (clearFirstWaiting seq (st.queues 3))
  else if (st.queues 4).any (matchesAck seq) then
    setQueue st 4 (clearFirstWaiting seq (st.queues 4))
  else st

/-- The operations through which callers drive a `LoRaManager`'s queue
machine: enqueue a packet (`sendPacket`), run one control-loop tick
(`processQueue`, with the given clock value and radio-driver outcome), or
deliver a received ACK / NACK carrying the given sequence number. -/
inductive LoraOp where
  | send : Nat → Fin 5 → LoraOp
  | tick : Nat → Bool → LoraOp
  | ack : Nat → LoraOp
  | nack : Nat → LoraOp

/-- Apply one operation to the state. -/
def applyOp (st : LoRaState) : LoraOp → LoRaState
  | .send seq p => sendPacket st seq p
  | .tick now ok => (processQueue st now ok).1
  | .ack seq => handleAckSeq st seq
  | .nack seq => handleNackSeq st seq

/-- Run a sequence of operations from the freshly constructed state; the
states `runOps ops` for arbitrary `ops` are exactly the reachable states
of the queue machine. -/
def runOps (ops : List LoraOp) : LoRaState := ops.foldl applyOp initialLoRaState

/-- Number of entries of one queue whose `waitingForAck` flag is set. -/
def waitingCount (q : List QueuedPacket) : Nat :=
  q.countP (fun qp => qp.waitingForAck)

/-- Number of entries across all five priority queues whose
`waitingForAck` flag is set. -/
def totalWaitingCount (st : LoRaState) : Nat :=
  waitingCount (st.queues 0) + waitingCount (st.queues 1) +
  waitingCount (st.queues 2) + waitingCount (st.queues 3) +
  waitingCount (st.queues 4)

/-- Models `LoRaManager::getTotalQueueSize` (lora_comm.cpp:367-373). -/
def totalQueueSize (st : LoRaState) : Nat :=
  (st.queues 0).length + (st.queues 1).length + (st.queues 2).length +
  (st.queues 3).length + (st.queues 4).length

/-- Run `processQueue` once per entry of `times` (the successive `millis()`
values of the control-loop ticks) with the radio driver always reporting
success, while no ACK or NACK ever arrives; count how many ticks actually
transmitted the packet. -/
def tickRunCount (st : LoRaState) (times : List Nat) : LoRaState × Nat :=
  times.foldl
    (fun p now =>
      let r := processQueue p.1 now true
      (r.1, p.2 + if r.2 then 1 else 0))
    (st, 0)

/-- Run `processQueue` once per entry of `times` with the radio driver
(`LoRa.endPacket`, surfaced through `transmitPacket`) reporting failure on
every attempt. -/
def failingTickRun (st : LoRaState) (times : List Nat) : LoRaState :=
  times.foldl (fun st1 now => (processQueue st1 now false).1) st

/-- Specification predicate: every entry of the queue except possibly the
head has `waitingForAck = false`. -/
def TailNoWait (q : List QueuedPacket) : Prop :=
  ∀ qp ∈ q.drop 1, qp.waitingForAck = false

/-- Specification predicate for the retry-bound argument: the system holds
exactly one packet, at the head of queue `prio`, and `n` transmissions
have happened so far (equal to its `transmitAttempts`, never beyond
`MAX_RETRIES`) with no transmit error counted — or the packet has been
dropped after exactly `MAX_RETRIES` transmissions and one counted
delivery failure. -/
def SolePacketInv (prio : Fin 5) (st : LoRaState) (n : Nat) : Prop :=
  (∃ qp : QueuedPacket, st.queues prio = [qp] ∧ qp.transmitAttempts = n ∧
    (∀ j, j ≠ prio → st.queues j = []) ∧ n ≤ MAX_RETRIES ∧
    st.transmitErrorCount = 0) ∨
  ((∀ j, st.queues j = []) ∧ n = MAX_RETRIES ∧ st.transmitErrorCount = 1)

/-! ### Packet codec (lora_comm.cpp:874-928)

`struct Packet` (lora_comm.h) carries a `LoRaPacketHeader` that the codec
only ever `memcpy`s as a unit; on the target ABI the header occupies
exactly 12 bytes with no padding, so it is modelled as its 12 raw bytes. -/

/-- Models `sizeof(LoRaPacketHeader)` = 12 on the target
(4 × `uint8_t`, `uint32_t`, `uint16_t`, 2 × `int8_t`; no padding). -/
def headerSize : Nat := 12

/-- Models `struct Packet` (lora_comm.h:36-46).  `header` is the 12-byte raw
image of the `LoRaPacketHeader`; `payloadLength` is `payload.length`. -/
structure Packet where
  header : List Nat
  type : Nat
  sequenceNumber : Nat
  payload : List Nat
  crc16 : Nat
  rssi : Int
  snr : Int
  valid : Bool
deriving DecidableEq, Repr

/-- One shift-and-conditionally-xor step of the reflected CRC16 used by
`lora_comm` (polynomial `0xA001`): `if (crc & 1) crc = (crc >> 1) ^ 0xA001;
else crc >>= 1;`. -/
def crcRoundA001 (crc : Nat) : Nat :=
  if crc &&& 1 = 1 then (crc >>> 1) ^^^ 0xA001 else crc >>> 1

/-- Fold one input byte into the CRC: `crc ^= data[i]` followed by eight
rounds (lora_comm.cpp:727-736 and 860-869). -/
def crcByteA001 (crc b : Nat) : Nat := crcRoundA001^[8] (crc ^^^ b % 256)

/-- Models `LoRaManager::calculateCRC16` / the loop of `calculatePacketCRC`
(lora_comm.cpp:724-739): reflected CRC16, polynomial `0xA001`, initial
value `0xFFFF`. -/
def calculateCRC16 (data : List Nat) : Nat := data.foldl crcByteA001 0xFFFF

/-- The byte string `calculatePacketCRC` builds in `tempBuffer`
(lora_comm.cpp:846-872): header image, type byte, big-endian sequence
number, then the payload. -/
def packetBytesForCRC (p : Packet) : List Nat :=
  p.header ++ [p.type % 256, p.sequenceNumber >>> 8 % 256, p.sequenceNumber % 256]
    ++ p.payload

/-- Models `calculatePacketCRC` (lora_comm.cpp:846-872). -/
def calculatePacketCRC (p : Packet) : Nat := calculateCRC16 (packetBytesForCRC p)

/-- Models `serializePacket` (lora_comm.cpp:874-900): header bytes, type byte,
big-endian 16-bit sequence number, payload, then the big-endian CRC16
computed by `calculatePacketCRC`; fails (returns `false` / `none`) when
the total size exceeds `MAX_PACKET_SIZE`.  `x % 256` models the `& 0xFF`
masks and `uint8_t` stores. -/
def serializePacket (p : Packet) : Option (List Nat) :=
  let totalSize := headerSize + 1 + 2 + p.payload.length + 2
  if MAX_PACKET_SIZE < totalSize then none
  else
    let crc := calculatePacketCRC p
    some (p.header ++
      [p.type % 256, p.sequenceNumber >>> 8 % 256, p.sequenceNumber % 256] ++
      p.payload ++ [crc >>> 8 % 256, crc % 256])

/-- Models `deserializePacket` (lora_comm.cpp:902-928): fails when the buffer is
below the minimum size, otherwise reads the fields back and — crucially —
sets `valid = false` (line 925: validity is only granted later by
`receivePacket` after `validatePacket` checks the CRC). -/
def deserializePacket (buffer : List Nat) : Option Packet :=
  if buffer.length < headerSize + 5 then none
  else some
    { header := buffer.take headerSize
      type := buffer.getD headerSize 0
      sequenceNumber :=
        (buffer.getD (headerSize + 1) 0) <<< 8 ||| buffer.getD (headerSize + 2) 0
      payload := (buffer.drop (headerSize + 3)).take (buffer.length - headerSize - 3 - 2)
      crc16 := (buffer.getD (buffer.length - 2) 0) <<< 8 ||| buffer.getD (buffer.length - 1) 0
      rssi := -128
      snr := -128
      valid := false }

/-! ### ACK/NACK dispatch (lora_comm.cpp:459-540) -/

/-- Models `LoRaManager::handleAck` including its payload parsing
(lora_comm.cpp:483-515): ACK packets shorter than 4 payload bytes are
ignored; otherwise the acknowledged sequence number is
`(payload[0] << 8) | payload[1]`. -/
def handleAckPacket (st : LoRaState) (ack : Packet) : LoRaState :=
  if ack.payload.length < 4 then st
  else handleAckSeq st ((ack.payload.getD 0 0) <<< 8 ||| ack.payload.getD 1 0)

/-- Models `LoRaManager::handleNack` including its payload parsing
(lora_comm.cpp:517-540): NACK packets shorter than 3 payload bytes are
ignored; otherwise `waitingForAck` is cleared on the first queued entry
whose sequence number equals `(payload[0] << 8) | payload[1]`. -/
def handleNackPacket (st : LoRaState) (nack : Packet) : LoRaState :=
  if nack.payload.length < 3 then st
  else handleNackSeq st ((nack.payload.getD 0 0) <<< 8 ||| nack.payload.getD 1 0)

/-- The `switch (packet.type)` of `LoRaManager::processIncomingPacket`
(lora_comm.cpp:459-477) applied to a successfully received, validated
packet: type code `0x06` (`ACK`) goes to `handleAck`, type code `0x07`
(`NACK`) goes to `handleNack`, every other type falls through to the
application layer leaving the queue state unchanged. -/
def processIncomingDispatch (st : LoRaState) (packet : Packet) : LoRaState :=
  if packet.type = PacketType.ACK then handleAckPacket st packet
  else if packet.type = PacketType.NACK then handleNackPacket st packet
  else st

/-! ### Adaptive spreading-factor control (lora_comm.cpp:140-152, 573-595) -/

/-- Models `ENABLE_ADAPTIVE_SF` (balloon_config.h). -/
def ENABLE_ADAPTIVE_SF : Bool := true

/-- Models `ADAPTIVE_SF_HIGH_THRESHOLD` (balloon_config.h). -/
def ADAPTIVE_SF_HIGH_THRESHOLD : Int := -80

/-- Models `ADAPTIVE_SF_LOW_THRESHOLD` (balloon_config.h). -/
def ADAPTIVE_SF_LOW_THRESHOLD : Int := -110

/-- Models `LoRaManager::setSpreadingFactor` (lora_comm.cpp:140-152) as it acts
on `currentSpreadingFactor`: requests outside `[6, 12]` are rejected and
leave the state unchanged. -/
def setSpreadingFactor (currentSF sf : Int) : Int :=
  if sf < 6 ∨ 12 < sf then currentSF else sf

/-- Models `LoRaManager::adaptTransmissionSettings` (lora_comm.cpp:573-595) as it
acts on `currentSpreadingFactor`: with adaptive mode compiled in, an RSSI
above the high threshold steps the spreading factor down (towards
throughput) while it is above 7, an RSSI below the low threshold steps it
up (towards robustness) while it is below 12. -/
def adaptTransmissionSettings (currentSF : Int) (rssi : Int) : Int :=
  if ENABLE_ADAPTIVE_SF = false then currentSF
  else if ADAPTIVE_SF_HIGH_THRESHOLD < rssi ∧ 7 < currentSF then
    setSpreadingFactor currentSF (currentSF - 1)
  else if rssi < ADAPTIVE_SF_LOW_THRESHOLD ∧ currentSF < 12 then
    setSpreadingFactor currentSF (currentSF + 1)
  else currentSF

end LoRaManager

namespace PacketHandler

/-- Models `PACKET_START_BYTE1` (packet_handler.h). -/
def PACKET_START_BYTE1 : Nat := 0xAA

/-- Models `PACKET_START_BYTE2` (packet_handler.h). -/
def PACKET_START_BYTE2 : Nat := 0x55

/-- Models `MAX_PAYLOAD_SIZE` (packet_handler.h). -/
def MAX_PAYLOAD_SIZE : Nat := 200

/-- Models `CRC8_POLYNOMIAL` (packet_handler.h). -/
def CRC8_POLYNOMIAL : Nat := 0x07

/-- Models `CRC16_POLYNOMIAL` (packet_handler.h). -/
def CRC16_POLYNOMIAL : Nat := 0x1021

/-- Models `sizeof(PacketHeader)` for `common_types.h`'s header struct on the
target ABI: fields occupy bytes 0-6 (`uint16_t payloadLength` at offset
4-5, little-endian) and the struct is padded to 8 bytes. -/
def headerSize : Nat := 8

/-- Models `sizeof(PacketFooter)` (packet_handler.h): `uint16_t crc16`
(little-endian at offset 0-1) plus the two end bytes. -/
def footerSize : Nat := 4

/-- Models `sizeof(receiveBuffer)` (packet_handler.h: `uint8_t receiveBuffer[512]`). -/
def receiveBufferSize : Nat := 512

/-- One shift-and-conditionally-xor step of the CRC8 (polynomial `0x07`,
MSB first), truncated to `uint8_t`. -/
def crc8Round (crc : Nat) : Nat :=
  if crc &&& 0x80 ≠ 0 then ((crc <<< 1) ^^^ CRC8_POLYNOMIAL) % 256
  else (crc <<< 1) % 256

/-- Fold one input byte into the CRC8: `crc ^= data[i]` then eight rounds
(packet_handler.cpp:557-572). -/
def crc8Byte (crc b : Nat) : Nat := crc8Round^[8] (crc ^^^ b % 256)

/-- Models `PacketHandler::calculateCRC8` (packet_handler.cpp:557-572):
polynomial `0x07`, initial value `0x00`. -/
def calculateCRC8 (data : List Nat) : Nat := data.foldl crc8Byte 0x00

/-- One step of the CRC16-CCITT (polynomial `0x1021`, MSB first),
truncated to `uint16_t`. -/
def crc16Round (crc : Nat) : Nat :=
  if crc &&& 0x8000 ≠ 0 then ((crc <<< 1) ^^^ CRC16_POLYNOMIAL) % 65536
  else (crc <<< 1) % 65536

/-- Fold one input byte into the CRC16: `crc ^= (uint16)data[i] << 8` then
eight rounds (packet_handler.cpp:574-589). -/
def crc16Byte (crc b : Nat) : Nat := crc16Round^[8] (crc ^^^ (b % 256) <<< 8)

/-- Models `PacketHandler::calculateCRC16` (packet_handler.cpp:574-589):
polynomial `0x1021`, initial value `0x0000`.  (Note this differs from
`LoRaManager.calculateCRC16`, matching the two divergent CRC routines of
the source.) -/
def calculateCRC16 (data : List Nat) : Nat := data.foldl crc16Byte 0x0000

/-- Models `header.packetType`: byte 2 of the received header image. -/
def headerPacketType (buf : List Nat) : Nat := buf.getD 2 0

/-- Models `header.payloadLength`: bytes 4-5 of the received header image, read
little-endian by the `memcpy` into the `uint16_t` field. -/
def headerPayloadLength (buf : List Nat) : Nat := buf.getD 4 0 + 256 * buf.getD 5 0

/-- Models `header.crc8`: byte 6 of the received header image. -/
def headerCrc8Field (buf : List Nat) : Nat := buf.getD 6 0

/-- Models `PacketHandler::validateHeader` (packet_handler.cpp:854-867): the type
byte must lie in `[HEARTBEAT, DEBUG] = [1, 8]` and the declared payload
length must not exceed `MAX_PAYLOAD_SIZE`. -/
def validateHeader (buf : List Nat) : Bool :=
  decide (PacketType.HEARTBEAT ≤ headerPacketType buf) &&
  decide (headerPacketType buf ≤ PacketType.DEBUG) &&
  decide (headerPayloadLength buf ≤ MAX_PAYLOAD_SIZE)

/-- Models `PacketHandler::verifyCRC` (packet_handler.cpp:591-619): check the
CRC8 of the first 7 bytes (`sizeof(PacketHeader) - 1`) against the header
CRC field, then the CRC16 of the payload (which starts at offset
`sizeof(PacketHeader)` = 8) against the footer's little-endian `crc16`. -/
def verifyCRC (buf : List Nat) : Bool :=
  if buf.length < headerSize + footerSize then false
  else if calculateCRC8 (buf.take 7) ≠ headerCrc8Field buf then false
  else
    let payloadSize := headerPayloadLength buf
    let payloadCRC := calculateCRC16 ((buf.drop headerSize).take payloadSize)
    let footerCRC := buf.getD (headerSize + payloadSize) 0 +
                     256 * buf.getD (headerSize + payloadSize + 1) 0
    payloadCRC == footerCRC

/-- The receive-parser state of a `PacketHandler`: the bytes accumulated
so far (`receiveBuffer` up to `receiveIndex`), whether the start sync has
been matched (`inPacket`), and the payload length declared by a validated
header (`expectedPayloadSize`). -/
structure RxState where
  receiveBuffer : List Nat
  inPacket : Bool
  expectedPayloadSize : Nat
deriving DecidableEq, Repr

/-- Models `PacketHandler::resetReceiveState` / the constructor's initial parser
state. -/
def initialRxState : RxState :=
  { receiveBuffer := [], inPacket := false, expectedPayloadSize := 0 }

/-- The completeness check at the end of `processReceivedByte`
(packet_handler.cpp:842-848): once `receiveIndex` reaches
`sizeof(PacketHeader) + expectedPayloadSize + sizeof(PacketFooter)`, run
`processCompletePacket` (whose outcome is `verifyCRC` of the accumulated
bytes) and reset. -/
def completeCheck (st : RxState) : RxState × Bool :=
  let totalExpectedSize := headerSize + st.expectedPayloadSize + footerSize
  if totalExpectedSize ≤ st.receiveBuffer.length then
    (initialRxState, verifyCRC st.receiveBuffer)
  else (st, false)

/-- Models `PacketHandler::processReceivedByte` (packet_handler.cpp:806-852).
While not `inPacket`: a `0xAA` at position 0 or a `0x55` at position 1 is
stored (the latter also sets `inPacket`); ANY other byte resets
`receiveIndex` to 0 and is itself discarded.  While `inPacket`: the byte
is appended; when the 8th byte completes the header image the header is
validated (resetting on failure) and the declared payload length is
latched; when the full frame is present its CRCs are checked and the
parser resets.  Returns the new state and whether a complete valid packet
was just processed. -/
def processReceivedByte (st : RxState) (byte : Nat) : RxState × Bool :=
  if st.inPacket = false then
    if st.receiveBuffer.length = 0 ∧ byte = PACKET_START_BYTE1 then
      ({ st with receiveBuffer := st.receiveBuffer ++ [byte] }, false)
    else if st.receiveBuffer.length = 1 ∧ byte = PACKET_START_BYTE2 then
      ({ st with receiveBuffer := st.receiveBuffer ++ [byte], inPacket := true }, false)
    else
      ({ st with receiveBuffer := [] }, false)
  else
    let buf := st.receiveBuffer ++ [byte]
    if buf.length = headerSize then
      if validateHeader buf = false then (initialRxState, false)
      else
        let epl := headerPayloadLength buf
        if receiveBufferSize < headerSize + epl + footerSize then (initialRxState, false)
        else completeCheck { st with receiveBuffer := buf, expectedPayloadSize := epl }
    else completeCheck { st with receiveBuffer := buf }

/-- Models `PacketHandler::processIncomingData` (packet_handler.cpp:106-124):
feed each byte of the chunk to `processReceivedByte`; the returned flag is
true when at least one complete valid packet was processed. -/
def processIncomingData (st : RxState) (data : List Nat) : RxState × Bool :=
  data.foldl (fun acc byte =>
    let r := processReceivedByte acc.1 byte
    (r.1, acc.2 || r.2)) (st, false)

/-- The sequence-number step of `PacketHandler::createHeartbeatPacket`
(packet_handler.cpp:211-215): `currentSequenceNumber++` on the `uint8_t`
member `currentSequenceNumber`, i.e. an increment modulo 256. -/
def nextHeartbeatSeq (currentSequenceNumber : Nat) : Nat :=
  (currentSequenceNumber + 1) % 256

/-- A concrete 13-byte wire frame that the receive parser accepts: start
sync `AA 55`, type `0x02`, sequence byte `0x00`, little-endian declared
payload length 1, header CRC8 `0x37` (the CRC8 of bytes 0-6 — which
include the CRC byte itself — equals `0x37`), one alignment-padding byte,
payload `0x42`, little-endian payload CRC16 `0x6886`, end bytes `0D 0A`. -/
def exampleFrame : List Nat :=
  [0xAA, 0x55, 0x02, 0x00, 0x01, 0x00, 0x37, 0x00, 0x42, 0x86, 0x68, 0x0D, 0x0A]

end PacketHandler


/-! ## Concrete example states and packets used by witnesses and
counterexamples -/

namespace LoRaManager

/-- Scenario A of the spec: five bulk (CAMERA, level 3) packets already
queued, then one EMERGENCY (level 0) packet. -/
def scenarioAState : LoRaState :=
  runOps [.send 1 3, .send 2 3, .send 3 3, .send 4 3, .send 5 3, .send 9 0]

/-- The state after eleven `sendPacket` calls at priority level 2: the
level is full (10 entries) and the oldest entry (sequence 1) has been
evicted by the eleventh enqueue. -/
def elevenSendsState : LoRaState :=
  runOps [.send 1 2, .send 2 2, .send 3 2, .send 4 2, .send 5 2, .send 6 2,
          .send 7 2, .send 8 2, .send 9 2, .send 10 2, .send 11 2]

/-- A trace that leaves two packets simultaneously awaiting an ACK: queue a
STATUS-priority (level 4) packet, transmit it, then queue an EMERGENCY
(level 0) packet and run another tick: `getNextPacket` now selects the
fresh emergency packet and transmits it while the first is still
unacknowledged. -/
def twoInFlightState : LoRaState :=
  runOps [.send 1 4, .tick 0 true, .send 2 0, .tick 100 true]

/-- A concrete well-formed outbound packet (header bytes: version 1,
deviceId 1, flags 0, retryCount 0, timestamp 1337 LE, batteryLevel 330 LE,
rssiAvg/snrAvg `0x80`). -/
def examplePacket : Packet :=
  { header := [0x01, 0x01, 0x00, 0x00, 0x39, 0x05, 0x00, 0x00, 0x4A, 0x01, 0x80, 0x80]
    type := 0x02
    sequenceNumber := 0x1234
    payload := [1, 2, 3]
    crc16 := 0
    rssi := -128
    snr := -128
    valid := false }

/-- A state with one packet (sequence 77, priority level 1) transmitted
and awaiting an ACK. -/
def inFlight77State : LoRaState := runOps [.send 77 1, .tick 0 true]

/-- A received frame whose type byte is `0x07`: its producer meant it as a
STATUS frame, but `0x07` is also the NACK code.  Its first two payload
bytes spell sequence number 77. -/
def statusFrame77 : Packet :=
  { header := [0, 0, 0, 0, 0, 0, 0, 0, 0, 0, 0, 0]
    type := 0x07
    sequenceNumber := 5
    payload := [0, 77, 9]
    crc16 := 0
    rssi := -60
    snr := 10
    valid := true }

end LoRaManager

/-! ## Helper lemmas -/

/-- Recombining a high byte and a low byte with `(hi << 8) | lo` equals
`256 * hi + lo` whenever the low byte is in range. -/
theorem shiftLeft_or_byte (a b : Nat) (hb : b < 256) : (a <<< 8) ||| b = 256 * a + b := by
  have h1 : a <<< 8 = 2 ^ 8 * a := by
    rw [Nat.shiftLeft_eq]; ring
  have h2 : b < 2 ^ 8 := by norm_num at hb ⊢; omega
  calc (a <<< 8) ||| b = 2 ^ 8 * a ||| b := by rw [h1]
    _ = 2 ^ 8 * a + b := (Nat.mul_add_lt_is_or h2 a).symm
    _ = 256 * a + b := by norm_num

namespace LoRaManager

theorem setQueue_queues_same (st : LoRaState) (i : Fin 5) (q : List QueuedPacket) :
    (setQueue st i q).queues i = q := by
  simp [setQueue]

theorem setQueue_queues_other (st : LoRaState) (i j : Fin 5) (q : List QueuedPacket)
    (h : j ≠ i) : (setQueue st i q).queues j = st.queues j := by
  simp [setQueue, h]

/-- Models `getNextPacket` either reports all queues empty, or returns the head of
the least-index (highest-priority) non-empty queue. -/
theorem getNextPacket_spec (st : LoRaState) :
    (getNextPacket st = none ∧ ∀ j, st.queues j = []) ∨
    (∃ i qp rest, getNextPacket st = some (i, qp) ∧ st.queues i = qp :: rest ∧
      ∀ j, j < i → st.queues j = []) := by
  unfold getNextPacket
  rcases h0 : st.queues 0 with _ | ⟨a0, r0⟩
  case cons =>
    refine Or.inr ⟨0, a0, r0, rfl, h0, ?_⟩
    intro j hj
    exact absurd hj (by simp [Fin.lt_def])
  rcases h1 : st.queues 1 with _ | ⟨a1, r1⟩
  case cons =>
    refine Or.inr ⟨1, a1, r1, rfl, h1, ?_⟩
    intro j hj
    have : j = 0 := by omega
    rw [this]; exact h0
  rcases h2 : st.queues 2 with _ | ⟨a2, r2⟩
  case cons =>
    refine Or.inr ⟨2, a2, r2, rfl, h2, ?_⟩
    intro j hj
    have : j = 0 ∨ j = 1 := by omega
    rcases this with h | h <;> rw [h] <;> assumption
  rcases h3 : st.queues 3 with _ | ⟨a3, r3⟩
  case cons =>
    refine Or.inr ⟨3, a3, r3, rfl, h3, ?_⟩
    intro j hj
    have : j = 0 ∨ j = 1 ∨ j = 2 := by omega
    rcases this with h | h | h <;> rw [h] <;> assumption
  rcases h4 : st.queues 4 with _ | ⟨a4, r4⟩
  case cons =>
    refine Or.inr ⟨4, a4, r4, rfl, h4, ?_⟩
    intro j hj
    have : j = 0 ∨ j = 1 ∨ j = 2 ∨ j = 3 := by omega
    rcases this with h | h | h | h <;> rw [h] <;> assumption
  refine Or.inl ⟨rfl, ?_⟩
  intro j
  have : j = 0 ∨ j = 1 ∨ j = 2 ∨ j = 3 ∨ j = 4 := by omega
  rcases this with h | h | h | h | h <;> rw [h] <;> assumption

/-- When exactly one queue is non-empty, `getNextPacket` returns its head. -/
theorem getNextPacket_single (st : LoRaState) (i : Fin 5) (qp : QueuedPacket)
    (rest : List QueuedPacket) (hq : st.queues i = qp :: rest)
    (hothers : ∀ j, j ≠ i → st.queues j = []) :
    getNextPacket st = some (i, qp) := by
  rcases getNextPacket_spec st with ⟨_, hall⟩ | ⟨i', qp', rest', hg, hq', _⟩
  · rw [hall i] at hq; cases hq
  · have hii : i' = i := by
      by_contra hne
      rw [hothers i' hne] at hq'
      cases hq'
    subst hii
    rw [hq] at hq'
    cases hq'
    exact hg

/-- All queues empty means `getNextPacket` finds nothing. -/
theorem getNextPacket_empty (st : LoRaState) (h : ∀ j, st.queues j = []) :
    getNextPacket st = none := by
  rcases getNextPacket_spec st with ⟨hn, _⟩ | ⟨i, qp, rest, _, hq, _⟩
  · exact hn
  · rw [h i] at hq; cases hq

end LoRaManager

/-! ## Claim C3 — sequence numbering of the packet-production path -/

namespace PacketHandler

/-- Claim C3 (amended): the heartbeat production path increments the 8-bit
counter `currentSequenceNumber`, so starting from any sequence number `s < 256`
the `k`-th following heartbeat carries `(s + k) % 256`: consecutive frames
increase by exactly 1 modulo 256 — after 255 the next value is 0 — with no
value skipped or repeated across the wrap boundary.  (The claim's "modulo
65536" is false: the counter is a `uint8_t`, and the `LoRaManager` path never
assigns sequence numbers at all.) -/
theorem heartbeat_seq_mod256 (s k : Nat) (h : s < 256) :
    nextHeartbeatSeq^[k] s = (s + k) % 256 ∧
    (s ≠ 255 → nextHeartbeatSeq s = s + 1) ∧ nextHeartbeatSeq 255 = 0 := by
  refine ⟨?_, ?_, by decide⟩
  · induction k with
    | zero => simpa using (Nat.mod_eq_of_lt h).symm
    | succ n ih =>
      rw [Function.iterate_succ_apply', ih]
      unfold nextHeartbeatSeq
      omega
  · intro hs
    unfold nextHeartbeatSeq
    omega

/-- Witness for `heartbeat_seq_mod256` at `s = 250`, `k = 10`: the tenth
heartbeat after sequence number 250 carries 4 (the counter wrapped at 255). -/
theorem heartbeat_seq_mod256_witness :
    nextHeartbeatSeq^[10] 250 = 4 ∧ nextHeartbeatSeq 250 = 251 := by
  have h := heartbeat_seq_mod256 250 10 (by decide)
  exact ⟨by rw [h.1], by rw [h.2.1 (by decide)]⟩

/-- Counterexample to claim C3 as stated: after a heartbeat carrying
sequence number 255 the next heartbeat carries 0, not `(255 + 1) % 65536 =
256`; the sequence numbers produced are 8-bit, not 16-bit. -/
theorem heartbeat_seq_not_mod65536 :
    nextHeartbeatSeq 255 = 0 ∧ (255 + 1) % 65536 = 256 ∧
    nextHeartbeatSeq 255 ≠ (255 + 1) % 65536 := by
  decide

end PacketHandler

/-! ## Claim C8 — adaptive spreading-factor bounds -/

namespace LoRaManager

/-- One `adaptTransmissionSettings` evaluation keeps the spreading factor
inside `[7, 12]`. -/
theorem adapt_step_bounds (sf rssi : Int) (h7 : 7 ≤ sf) (h12 : sf ≤ 12) :
    7 ≤ adaptTransmissionSettings sf rssi ∧ adaptTransmissionSettings sf rssi ≤ 12 := by
  simp only [adaptTransmissionSettings, setSpreadingFactor, ENABLE_ADAPTIVE_SF,
    ADAPTIVE_SF_HIGH_THRESHOLD, ADAPTIVE_SF_LOW_THRESHOLD]
  split_ifs <;> constructor <;> omega

/-- Claim C8: starting from any spreading factor in `[7, 12]`, every
sequence of `adaptTransmissionSettings(rssi, snr)` calls keeps the current
spreading factor in `[7, 12]`; and a call whose RSSI is above
`ADAPTIVE_SF_HIGH_THRESHOLD` decreases it by exactly 1 while it is above
the floor of 7, and leaves it unchanged at the floor.  (`snr` does not
influence the update and is omitted.) -/
theorem adaptive_sf_bounded (sf : Int) (h7 : 7 ≤ sf) (h12 : sf ≤ 12) :
    (∀ rssis : List Int,
      7 ≤ rssis.foldl adaptTransmissionSettings sf ∧
      rssis.foldl adaptTransmissionSettings sf ≤ 12) ∧
    (∀ rssi : Int, ADAPTIVE_SF_HIGH_THRESHOLD < rssi →
      adaptTransmissionSettings sf rssi = if 7 < sf then sf - 1 else sf) := by
  constructor
  · intro rssis
    induction rssis generalizing sf with
    | nil => exact ⟨h7, h12⟩
    | cons r rs ih =>
      have hstep := adapt_step_bounds sf r h7 h12
      simpa using ih (adaptTransmissionSettings sf r) hstep.1 hstep.2
  · intro rssi hr
    unfold ADAPTIVE_SF_HIGH_THRESHOLD at hr
    simp only [adaptTransmissionSettings, setSpreadingFactor, ENABLE_ADAPTIVE_SF,
      ADAPTIVE_SF_HIGH_THRESHOLD, ADAPTIVE_SF_LOW_THRESHOLD]
    by_cases hsf : 7 < sf
    · rw [if_neg (by decide), if_pos ⟨hr, hsf⟩, if_neg (by omega : ¬(sf - 1 < 6 ∨ 12 < sf - 1)),
        if_pos hsf]
    · have h7eq : sf = 7 := by omega
      subst h7eq
      rw [if_neg (by decide), if_neg (fun hc => absurd hc.2 (by omega)),
        if_neg (fun hc => absurd hc.1 (by omega : ¬rssi < -110)), if_neg hsf]

/-- Witness for `adaptive_sf_bounded`: from the configured default SF 10,
ten consecutive strong-signal samples keep the SF within bounds, and one
strong-signal sample steps 10 down to 9. -/
theorem adaptive_sf_bounded_witness :
    (7 ≤ [(-70 : Int), -70, -70, -70, -70, -70, -70, -70, -70, -70].foldl
        adaptTransmissionSettings 10 ∧
      [(-70 : Int), -70, -70, -70, -70, -70, -70, -70, -70, -70].foldl
        adaptTransmissionSettings 10 ≤ 12) ∧
    adaptTransmissionSettings 10 (-70) = 9 := by
  have h := adaptive_sf_bounded 10 (by decide) (by decide)
  refine ⟨h.1 _, ?_⟩
  rw [h.2 (-70) (by decide)]
  decide

end LoRaManager

/-! ## Claim C6 — strict priority selection, FIFO within a level -/

namespace LoRaManager

/-- Claim C6: whenever a higher-priority level `h` and a lower-priority
level `l` both hold packets, `getNextPacket` returns the head entry of the
highest-priority non-empty queue — its index `i` satisfies `i ≤ h < l` and
every strictly higher-priority queue is empty — regardless of the order in
which the packets were enqueued; and (FIFO within a level) a non-full
enqueue appends at the tail, so the head is the oldest entry of its
level. -/
theorem getNextPacket_priority (st : LoRaState) (h l : Fin 5) (hlt : h < l)
    (hne : st.queues h ≠ []) :
    (∃ i qp rest, getNextPacket st = some (i, qp) ∧ i ≤ h ∧ i < l ∧
      st.queues i = qp :: rest ∧ ∀ j, j < i → st.queues j = []) ∧
    (∀ (st2 : LoRaState) (p : Fin 5) (q : QueuedPacket),
      (st2.queues p).length < MAX_QUEUE_SIZE →
      (addToQueueInternal st2 p q).queues p = st2.queues p ++ [q]) := by
  constructor
  · rcases getNextPacket_spec st with ⟨_, hall⟩ | ⟨i, qp, rest, hg, hq, hmin⟩
    · exact absurd (hall h) hne
    · have hih : i ≤ h := by
        by_contra hih
        push_neg at hih
        exact hne (hmin h hih)
      exact ⟨i, qp, rest, hg, hih, lt_of_le_of_lt hih hlt, hq, hmin⟩
  · intro st2 p q hlen
    simp only [addToQueueInternal]
    rw [if_pos hlen, setQueue_queues_same]

/-- Witness for `getNextPacket_priority`, Scenario A: with five CAMERA
(level 3) packets and one EMERGENCY (level 0) packet queued, the next
packet comes from level 0. -/
theorem getNextPacket_priority_witness :
    ((0 : Fin 5) < 3 ∧ scenarioAState.queues 0 ≠ []) ∧
    (∃ i qp rest, getNextPacket scenarioAState = some (i, qp) ∧ i ≤ 0 ∧ i < 3 ∧
      scenarioAState.queues i = qp :: rest ∧ ∀ j, j < i → scenarioAState.queues j = []) :=
  ⟨⟨by decide, by decide⟩,
    (getNextPacket_priority scenarioAState 0 3 (by decide) (by decide)).1⟩

end LoRaManager

/-! ## Claim C7 — queue-overflow eviction policy -/

namespace LoRaManager

/-- Claim C7 (amended): enqueueing into a full priority level evicts that
same level's oldest entry (the FIFO head) and appends the new entry at the
tail; every other level and every counter of the `LoRaManager` is left
unchanged.  (The claim's "an overflow event is counted" is false: the
overflow branch of `addToQueueInternal` only emits a debug print — no
counter records the eviction.) -/
theorem addToQueue_overflow (st : LoRaState) (i : Fin 5) (qp : QueuedPacket)
    (hfull : (st.queues i).length = MAX_QUEUE_SIZE) :
    (addToQueueInternal st i qp).queues i = (st.queues i).tail ++ [qp] ∧
    (∀ j, j ≠ i → (addToQueueInternal st i qp).queues j = st.queues j) ∧
    (addToQueueInternal st i qp).transmitErrorCount = st.transmitErrorCount ∧
    (addToQueueInternal st i qp).receiveErrorCount = st.receiveErrorCount ∧
    (addToQueueInternal st i qp).crcErrorCount = st.crcErrorCount ∧
    (addToQueueInternal st i qp).ackTimeoutCount = st.ackTimeoutCount := by
  have hnotlt : ¬ (st.queues i).length < MAX_QUEUE_SIZE := by omega
  simp only [addToQueueInternal]
  rw [if_neg hnotlt]
  exact ⟨setQueue_queues_same st i _, fun j hj => setQueue_queues_other st i j _ hj,
    rfl, rfl, rfl, rfl⟩

/-- Witness for `addToQueue_overflow` at a reachable full state. -/
theorem addToQueue_overflow_witness :
    (elevenSendsState.queues 2).length = MAX_QUEUE_SIZE ∧
    (addToQueueInternal elevenSendsState 2 ⟨12, 0, 0, false⟩).queues 2 =
      (elevenSendsState.queues 2).tail ++ [⟨12, 0, 0, false⟩] :=
  ⟨by decide, (addToQueue_overflow elevenSendsState 2 ⟨12, 0, 0, false⟩ (by decide)).1⟩

/-- Counterexample to claim C7 as stated: after eleven enqueues into level
2 the level is full and its oldest entry (sequence 1) has been evicted by
the overflow policy, yet every counter of the `LoRaManager` still reads 0 —
no overflow event was counted anywhere in the object's state. -/
theorem queueOverflow_not_counted :
    (elevenSendsState.queues 2).length = MAX_QUEUE_SIZE ∧
    elevenSendsState.queues 2 =
      [⟨2, 0, 0, false⟩, ⟨3, 0, 0, false⟩, ⟨4, 0, 0, false⟩, ⟨5, 0, 0, false⟩,
       ⟨6, 0, 0, false⟩, ⟨7, 0, 0, false⟩, ⟨8, 0, 0, false⟩, ⟨9, 0, 0, false⟩,
       ⟨10, 0, 0, false⟩, ⟨11, 0, 0, false⟩] ∧
    elevenSendsState.transmitErrorCount = 0 ∧
    elevenSendsState.receiveErrorCount = 0 ∧
    elevenSendsState.crcErrorCount = 0 ∧
    elevenSendsState.ackTimeoutCount = 0 := by
  decide

end LoRaManager

/-! ## Claim C2 — codec round trip -/

namespace LoRaManager

/-- Models `serializePacket` succeeds on any packet whose encoded size fits in
`MAX_PACKET_SIZE`, and its output is the concatenation of header bytes,
type byte, big-endian sequence number, payload, and big-endian CRC. -/
theorem serializePacket_eq (p : Packet)
    (hp : headerSize + 1 + 2 + p.payload.length + 2 ≤ MAX_PACKET_SIZE) :
    serializePacket p = some (p.header ++
      [p.type % 256, p.sequenceNumber >>> 8 % 256, p.sequenceNumber % 256] ++
      p.payload ++
      [calculatePacketCRC p >>> 8 % 256, calculatePacketCRC p % 256]) := by
  unfold headerSize MAX_PACKET_SIZE at hp
  simp only [serializePacket, headerSize, MAX_PACKET_SIZE]
  rw [if_neg (by omega)]

/-- Claim C2 (amended): for every legal packet — header image of the
correct size, byte-sized type code, 16-bit sequence number, payload within
the configured maximum — deserializing the serialized bytes restores the
type, the sequence number, the payload and the header, but the restored
packet's `valid` flag is `false`, not `true`: `deserializePacket` always
clears `valid`, and only the higher-level `receivePacket` sets it after
`validatePacket` re-checks the CRC. -/
theorem serialize_deserialize_roundtrip (p : Packet)
    (hh : p.header.length = headerSize) (ht : p.type < 256)
    (hs : p.sequenceNumber < 65536)
    (hp : headerSize + 1 + 2 + p.payload.length + 2 ≤ MAX_PACKET_SIZE) :
    ∃ buffer q, serializePacket p = some buffer ∧ deserializePacket buffer = some q ∧
      q.header = p.header ∧ q.type = p.type ∧
      q.sequenceNumber = p.sequenceNumber ∧ q.payload = p.payload ∧
      q.valid = false := by
  have hh12 : p.header.length = 12 := by rw [hh]; rfl
  set t' := p.type % 256 with ht'
  set hi := p.sequenceNumber >>> 8 % 256 with hhi
  set lo := p.sequenceNumber % 256 with hlo
  set c1 := calculatePacketCRC p >>> 8 % 256 with hc1
  set c2 := calculatePacketCRC p % 256 with hc2
  set buffer := p.header ++ [t', hi, lo] ++ p.payload ++ [c1, c2] with hbufdef
  have hA : buffer = p.header ++ (t' :: hi :: lo :: (p.payload ++ [c1, c2])) := by
    simp [hbufdef, List.append_assoc]
  have hB : buffer = (p.header ++ [t', hi, lo]) ++ (p.payload ++ [c1, c2]) := by
    simp [hbufdef, List.append_assoc]
  have hlen : buffer.length = p.payload.length + 17 := by
    rw [hA]
    simp [hh12]
    omega
  have hmin : ¬ buffer.length < headerSize + 5 := by
    rw [hlen]
    unfold headerSize
    omega
  have htype : buffer.getD headerSize 0 = p.type := by
    rw [hA, List.getD_append_right _ _ _ _ (by rw [hh12]; rfl)]
    rw [hh12]
    show List.getD (t' :: hi :: lo :: (p.payload ++ [c1, c2])) 0 0 = p.type
    simp [ht', Nat.mod_eq_of_lt ht]
  have hgethi : buffer.getD (headerSize + 1) 0 = hi := by
    rw [hA, List.getD_append_right _ _ _ _ (by rw [hh12]; decide)]
    rw [hh12]
    rfl
  have hgetlo : buffer.getD (headerSize + 2) 0 = lo := by
    rw [hA, List.getD_append_right _ _ _ _ (by rw [hh12]; decide)]
    rw [hh12]
    rfl
  have hseq : (buffer.getD (headerSize + 1) 0) <<< 8 ||| buffer.getD (headerSize + 2) 0 =
      p.sequenceNumber := by
    rw [hgethi, hgetlo, hhi, hlo,
      shiftLeft_or_byte _ _ (Nat.mod_lt _ (by norm_num)),
      Nat.shiftRight_eq_div_pow]
    norm_num
    omega
  have hhead : buffer.take headerSize = p.header := by
    rw [hA]
    exact List.take_left' hh
  have hpay : (buffer.drop (headerSize + 3)).take (buffer.length - headerSize - 3 - 2) =
      p.payload := by
    have h15 : (p.header ++ [t', hi, lo]).length = headerSize + 3 := by
      simp [hh12]
      rfl
    have hsub : buffer.length - headerSize - 3 - 2 = p.payload.length := by
      rw [hlen]
      unfold headerSize
      omega
    rw [hsub, hB, List.drop_left' h15]
    exact List.take_left' rfl
  refine ⟨buffer,
    { header := p.header
      type := p.type
      sequenceNumber := p.sequenceNumber
      payload := p.payload
      crc16 := (buffer.getD (buffer.length - 2) 0) <<< 8 ||| buffer.getD (buffer.length - 1) 0
      rssi := -128
      snr := -128
      valid := false },
    serializePacket_eq p hp, ?_, rfl, rfl, rfl, rfl, rfl⟩
  unfold deserializePacket
  rw [if_neg hmin, hhead, htype, hseq, hpay]

/-- Witness for `serialize_deserialize_roundtrip` at `examplePacket`
(type `0x02`, sequence `0x1234`, payload `[1, 2, 3]`). -/
theorem serialize_deserialize_roundtrip_witness :
    (examplePacket.header.length = headerSize ∧ examplePacket.type < 256 ∧
      examplePacket.sequenceNumber < 65536 ∧
      headerSize + 1 + 2 + examplePacket.payload.length + 2 ≤ MAX_PACKET_SIZE) ∧
    (∃ buffer q, serializePacket examplePacket = some buffer ∧
      deserializePacket buffer = some q ∧
      q.header = examplePacket.header ∧ q.type = examplePacket.type ∧
      q.sequenceNumber = examplePacket.sequenceNumber ∧
      q.payload = examplePacket.payload ∧ q.valid = false) :=
  ⟨⟨by decide, by decide, by decide, by decide⟩,
    serialize_deserialize_roundtrip examplePacket (by decide) (by decide)
      (by decide) (by decide)⟩

/-- Counterexample to claim C2 as stated: decoding the encoding of
`examplePacket` restores type `0x02`, sequence `0x1234` and payload
`[1, 2, 3]`, but the decoded packet's `valid` flag is `false` — not `true`
as the claim requires (`deserializePacket` sets `valid = false`
unconditionally, lora_comm.cpp:925). -/
theorem roundtrip_valid_flag_false :
    ((serializePacket examplePacket).bind deserializePacket).map
        (fun q => (q.type, q.sequenceNumber, q.payload, q.valid)) =
      some (0x02, 0x1234, [1, 2, 3], false) := by
  decide

end LoRaManager

/-! ## Claim C1 — the single-flight invariant -/

namespace LoRaManager

theorem tailNoWait_of_all (q : List QueuedPacket)
    (h : ∀ qp ∈ q, qp.waitingForAck = false) : TailNoWait q :=
  fun qp hqp => h qp (List.drop_subset 1 q hqp)

theorem tailNoWait_cons_elim {a : QueuedPacket} {t : List QueuedPacket}
    (h : TailNoWait (a :: t)) : ∀ qp ∈ t, qp.waitingForAck = false :=
  fun qp hqp => h qp hqp

theorem tailNoWait_append (q : List QueuedPacket) (qp : QueuedPacket)
    (h : TailNoWait q) (hqp : qp.waitingForAck = false) : TailNoWait (q ++ [qp]) := by
  cases q with
  | nil =>
    intro x hx
    simp at hx
  | cons a t =>
    intro x hx
    rcases List.mem_append.1 (show x ∈ t ++ [qp] from hx) with h1 | h1
    · exact tailNoWait_cons_elim h x h1
    · simp at h1
      rw [h1]
      exact hqp

theorem tailNoWait_tail_append (q : List QueuedPacket) (qp : QueuedPacket)
    (h : TailNoWait q) (hqp : qp.waitingForAck = false) : TailNoWait (q.tail ++ [qp]) := by
  cases q with
  | nil =>
    intro x hx
    simp at hx
  | cons a t =>
    apply tailNoWait_of_all
    intro x hx
    rcases List.mem_append.1 hx with h1 | h1
    · exact tailNoWait_cons_elim h x h1
    · simp at h1
      rw [h1]
      exact hqp

theorem tailNoWait_replaceHead (q : List QueuedPacket) (qp : QueuedPacket)
    (h : TailNoWait q) : TailNoWait (replaceHead q qp) := by
  cases q with
  | nil => exact h
  | cons a t => intro x hx; exact h x hx

theorem tailNoWait_tail (q : List QueuedPacket) (h : TailNoWait q) :
    TailNoWait q.tail := by
  cases q with
  | nil => exact h
  | cons a t => exact tailNoWait_of_all t (tailNoWait_cons_elim h)

theorem tailNoWait_setQueue (st : LoRaState) (i : Fin 5) (q : List QueuedPacket)
    (h : ∀ j, TailNoWait (st.queues j)) (hq : TailNoWait q) :
    ∀ j, TailNoWait ((setQueue st i q).queues j) := by
  intro j
  by_cases hj : j = i
  · rw [hj, setQueue_queues_same]
    exact hq
  · rw [setQueue_queues_other st i j q hj]
    exact h j

theorem addToQueueInternal_tailNoWait (st : LoRaState) (i : Fin 5)
    (qp : QueuedPacket) (hqp : qp.waitingForAck = false)
    (h : ∀ j, TailNoWait (st.queues j)) :
    ∀ j, TailNoWait ((addToQueueInternal st i qp).queues j) := by
  simp only [addToQueueInternal]
  split
  · exact tailNoWait_setQueue _ _ _ h (tailNoWait_append _ _ (h i) hqp)
  · exact tailNoWait_setQueue _ _ _ h (tailNoWait_tail_append _ _ (h i) hqp)

theorem processQueueTransmit_tailNoWait (st : LoRaState) (i : Fin 5)
    (np : QueuedPacket) (now : Nat) (ok : Bool)
    (h : ∀ j, TailNoWait (st.queues j)) :
    ∀ j, TailNoWait ((processQueueTransmit st i np now ok).1.queues j) := by
  unfold processQueueTransmit
  split
  · intro j
    refine tailNoWait_setQueue st i _ h ?_ j
    rw [List.eraseIdx_zero]
    exact tailNoWait_tail _ (h i)
  · split
    · intro j
      exact tailNoWait_setQueue st i _ h (tailNoWait_replaceHead _ _ (h i)) j
    · exact h

theorem processQueue_tailNoWait (st : LoRaState) (now : Nat) (ok : Bool)
    (h : ∀ j, TailNoWait (st.queues j)) :
    ∀ j, TailNoWait ((processQueue st now ok).1.queues j) := by
  unfold processQueue
  cases hg : getNextPacket st with
  | none => exact h
  | some p =>
    obtain ⟨i, np⟩ := p
    dsimp only
    split
    · split
      · exact processQueueTransmit_tailNoWait (ackTimeoutClear st i np) i _ now ok
          (tailNoWait_setQueue st i _ h (tailNoWait_replaceHead _ _ (h i)))
      · exact h
    · exact processQueueTransmit_tailNoWait st i np now ok h

theorem removeFirstWaiting_subset (seq : Nat) (q : List QueuedPacket) :
    ∀ x ∈ removeFirstWaiting seq q, x ∈ q := by
  induction q with
  | nil => simp [removeFirstWaiting]
  | cons a t ih =>
    intro x hx
    unfold removeFirstWaiting at hx
    split at hx
    · exact List.mem_cons_of_mem a hx
    · rcases List.mem_cons.1 hx with h1 | h1
      · rw [h1]; exact List.mem_cons_self a t
      · exact List.mem_cons_of_mem a (ih x h1)

theorem tailNoWait_removeFirstWaiting (seq : Nat) (q : List QueuedPacket)
    (h : TailNoWait q) : TailNoWait (removeFirstWaiting seq q) := by
  cases q with
  | nil => exact h
  | cons a t =>
    unfold removeFirstWaiting
    split
    · exact tailNoWait_of_all t (tailNoWait_cons_elim h)
    · intro x hx
      exact tailNoWait_cons_elim h x (removeFirstWaiting_subset seq t x hx)

theorem clearFirstWaiting_mem (seq : Nat) (q : List QueuedPacket) :
    ∀ x ∈ clearFirstWaiting seq q, x.waitingForAck = false ∨ x ∈ q := by
  induction q with
  | nil => simp [clearFirstWaiting]
  | cons a t ih =>
    intro x hx
    unfold clearFirstWaiting at hx
    split at hx
    · rcases List.mem_cons.1 hx with h1 | h1
      · rw [h1]; left; rfl
      · right
        exact List.mem_cons_of_mem a h1
    · rcases List.mem_cons.1 hx with h1 | h1
      · rw [h1]; right; exact List.mem_cons_self a t
      · rcases ih x h1 with h2 | h2
        · left; exact h2
        · right; exact List.mem_cons_of_mem a h2

theorem tailNoWait_clearFirstWaiting (seq : Nat) (q : List QueuedPacket)
    (h : TailNoWait q) : TailNoWait (clearFirstWaiting seq q) := by
  cases q with
  | nil => exact h
  | cons a t =>
    unfold clearFirstWaiting
    split
    · intro x hx
      exact tailNoWait_cons_elim h x hx
    · intro x hx
      rcases clearFirstWaiting_mem seq t x hx with h1 | h1
      · exact h1
      · exact tailNoWait_cons_elim h x h1

theorem handleAckSeq_tailNoWait (st : LoRaState) (seq : Nat)
    (h : ∀ j, TailNoWait (st.queues j)) :
    ∀ j, TailNoWait ((handleAckSeq st seq).queues j) := by
  unfold handleAckSeq
  split_ifs <;>
    first
      | exact h
      | exact tailNoWait_setQueue _ _ _ h (tailNoWait_removeFirstWaiting _ _ (h _))

theorem handleNackSeq_tailNoWait (st : LoRaState) (seq : Nat)
    (h : ∀ j, TailNoWait (st.queues j)) :
    ∀ j, TailNoWait ((handleNackSeq st seq).queues j) := by
  unfold handleNackSeq
  split_ifs <;>
    first
      | exact h
      | exact tailNoWait_setQueue _ _ _ h (tailNoWait_clearFirstWaiting _ _ (h _))

theorem applyOp_tailNoWait (st : LoRaState) (op : LoraOp)
    (h : ∀ j, TailNoWait (st.queues j)) :
    ∀ j, TailNoWait ((applyOp st op).queues j) := by
  cases op with
  | send seq p => exact addToQueueInternal_tailNoWait st p _ rfl h
  | tick now ok => exact processQueue_tailNoWait st now ok h
  | ack seq => exact handleAckSeq_tailNoWait st seq h
  | nack seq => exact handleNackSeq_tailNoWait st seq h

theorem runOps_tailNoWait (ops : List LoraOp) :
    ∀ j, TailNoWait ((runOps ops).queues j) := by
  have main : ∀ (l : List LoraOp) (st : LoRaState), (∀ j, TailNoWait (st.queues j)) →
      ∀ j, TailNoWait ((l.foldl applyOp st).queues j) := by
    intro l
    induction l with
    | nil => exact fun st h => h
    | cons op rest ih => exact fun st h => ih _ (applyOp_tailNoWait st op h)
  exact main ops initialLoRaState (fun j x hx => absurd hx (List.not_mem_nil x))

theorem waitingCount_le_one (q : List QueuedPacket) (h : TailNoWait q) :
    waitingCount q ≤ 1 := by
  cases q with
  | nil => simp [waitingCount]
  | cons a t =>
    unfold waitingCount
    rw [List.countP_cons]
    have ht : t.countP (fun qp => qp.waitingForAck) = 0 := by
      rw [List.countP_eq_zero]
      intro x hx
      simp [tailNoWait_cons_elim h x hx]
    rw [ht]
    split <;> omega

/-- Claim C1 (amended): in every reachable state of the queue machine, at
most one entry PER PRIORITY LEVEL (necessarily the head of its queue) has
`waitingForAck = true`.  Across the five levels up to five entries can be
awaiting an ACK simultaneously — the claimed global single-flight
invariant is false, see `two_packets_waiting_counterexample`. -/
theorem perQueue_at_most_one_waiting (ops : List LoraOp) (i : Fin 5) :
    waitingCount ((runOps ops).queues i) ≤ 1 :=
  waitingCount_le_one _ (runOps_tailNoWait ops i)

/-- Counterexample to claim C1 as stated: after the reachable trace
`twoInFlightState` — queue a STATUS packet, transmit it, queue an
EMERGENCY packet, run one more tick — two queued packets (one per level)
have `waitingForAck = true` at the same instant: `processQueue` only ever
inspects the head of the highest-priority non-empty queue, so it transmits
the fresh emergency packet while the status packet is still in flight. -/
theorem two_packets_waiting_counterexample :
    totalWaitingCount twoInFlightState = 2 := by
  decide

end LoRaManager

/-! ## Claim C4 — the retry bound -/

namespace LoRaManager

/-- The transmit step of `processQueue` on a state whose only packet is
`qp` at the head of queue `prio`, with the radio succeeding: either the
attempt counter was below `MAX_RETRIES` and the packet is transmitted once
more, or it had reached `MAX_RETRIES` and the packet is removed and
counted as one transmit error. -/
theorem processQueueTransmit_single_step (st : LoRaState) (prio : Fin 5)
    (qp : QueuedPacket) (now n : Nat)
    (hq : st.queues prio = [qp]) (hatt : qp.transmitAttempts = n)
    (hn : n ≤ MAX_RETRIES)
    (hothers : ∀ j, j ≠ prio → st.queues j = [])
    (herr : st.transmitErrorCount = 0) :
    (∃ qp2 : QueuedPacket,
      (processQueueTransmit st prio qp now true).1.queues prio = [qp2] ∧
      qp2.transmitAttempts = n + 1 ∧ n + 1 ≤ MAX_RETRIES ∧
      (∀ j, j ≠ prio → (processQueueTransmit st prio qp now true).1.queues j = []) ∧
      (processQueueTransmit st prio qp now true).1.transmitErrorCount = 0 ∧
      (processQueueTransmit st prio qp now true).2 = true) ∨
    ((∀ j, (processQueueTransmit st prio qp now true).1.queues j = []) ∧
      n = MAX_RETRIES ∧
      (processQueueTransmit st prio qp now true).1.transmitErrorCount = 1 ∧
      (processQueueTransmit st prio qp now true).2 = false) := by
  unfold processQueueTransmit
  by_cases h3 : MAX_RETRIES ≤ qp.transmitAttempts
  · rw [if_pos h3]
    right
    refine ⟨?_, by omega, ?_, rfl⟩
    · intro j
      by_cases hj : j = prio
      · subst hj
        show (removePacketFromQueue st j 0).queues j = []
        unfold removePacketFromQueue
        rw [setQueue_queues_same, hq]
        rfl
      · show (removePacketFromQueue st prio 0).queues j = []
        unfold removePacketFromQueue
        rw [setQueue_queues_other _ _ _ _ hj]
        exact hothers j hj
    · show st.transmitErrorCount + 1 = 1
      rw [herr]
  · rw [if_neg h3, if_pos rfl]
    left
    refine ⟨{ qp with
              transmitAttempts := qp.transmitAttempts + 1
              lastTransmitTime := now
              waitingForAck := true }, ?_, ?_, ?_, ?_, herr, rfl⟩
    · rw [setQueue_queues_same, hq]
      rfl
    · simp [hatt]
    · omega
    · intro j hj
      rw [setQueue_queues_other _ _ _ _ hj]
      exact hothers j hj

end LoRaManager

namespace LoRaManager

/-- One all-success, no-ACK tick preserves `SolePacketInv`, counting the
tick exactly when it transmitted. -/
theorem processQueue_single_step (prio : Fin 5) (st : LoRaState) (n now : Nat)
    (h : SolePacketInv prio st n) :
    SolePacketInv prio (processQueue st now true).1
      (n + if (processQueue st now true).2 then 1 else 0) := by
  rcases h with ⟨qp, hq, hatt, hothers, hn, herr⟩ | ⟨hall, hn, herr⟩
  · have hg : getNextPacket st = some (prio, qp) :=
      getNextPacket_single st prio qp [] hq hothers
    unfold processQueue
    split
    · rename_i heq
      rw [hg] at heq
      cases heq
    · rename_i i np heq
      rw [hg] at heq
      simp only [Option.some.injEq, Prod.mk.injEq] at heq
      obtain ⟨h1, h2⟩ := heq
      subst h1
      subst h2
      by_cases hw : qp.waitingForAck = true
      · simp only [hw]
        by_cases ht : ACK_TIMEOUT_MS < now - qp.lastTransmitTime
        · simp only [ht, ite_true]
          have h1 : (ackTimeoutClear st prio qp).queues prio =
              [{ qp with waitingForAck := false }] := by
            show (setQueue st prio (replaceHead (st.queues prio)
              { qp with waitingForAck := false })).queues prio = _
            rw [setQueue_queues_same, hq]
            rfl
          have h2 : ∀ j, j ≠ prio → (ackTimeoutClear st prio qp).queues j = [] := by
            intro j hj
            show (setQueue st prio (replaceHead (st.queues prio)
              { qp with waitingForAck := false })).queues j = []
            rw [setQueue_queues_other _ _ _ _ hj]
            exact hothers j hj
          have herr1 : (ackTimeoutClear st prio qp).transmitErrorCount = 0 := herr
          rcases processQueueTransmit_single_step (ackTimeoutClear st prio qp) prio
              { qp with waitingForAck := false } now n h1 hatt hn h2 herr1 with
            ⟨qp2, ha, hb, hc, hd, he, hf⟩ | ⟨ha, hb, hc, hd⟩
          · rw [hf]
            exact Or.inl ⟨qp2, ha, hb, hd, hc, he⟩
          · rw [hd]
            exact Or.inr ⟨ha, by simpa using hb, hc⟩
        · simp only [ht, ite_false]
          exact Or.inl ⟨qp, hq, by simpa using hatt, hothers, hn, herr⟩
      · simp only [Bool.not_eq_true] at hw
        simp only [hw, Bool.false_eq_true, ite_false]
        rcases processQueueTransmit_single_step st prio qp now n hq hatt hn
            hothers herr with ⟨qp2, ha, hb, hc, hd, he, hf⟩ | ⟨ha, hb, hc, hd⟩
        · rw [hf]
          exact Or.inl ⟨qp2, ha, hb, hd, hc, he⟩
        · rw [hd]
          exact Or.inr ⟨ha, by simpa using hb, hc⟩
  · have hg : getNextPacket st = none := getNextPacket_empty st hall
    unfold processQueue
    split
    · exact Or.inr ⟨hall, by simpa using hn, herr⟩
    · rename_i i np heq
      rw [hg] at heq
      cases heq

/-- Claim C4: a packet enqueued into an otherwise idle manager that never
receives an ACK (radio reporting success on every attempt) is transmitted
at most `MAX_RETRIES = 3` times over any schedule of `processQueue` ticks;
and whenever it has disappeared from its priority queue, it was
transmitted exactly 3 times — never 4 — and `transmitErrorCount` was
incremented by exactly 1. -/
theorem retry_bound_exactly_three (prio : Fin 5) (seq : Nat) (times : List Nat) :
    (tickRunCount (sendPacket initialLoRaState seq prio) times).2 ≤ MAX_RETRIES ∧
    ((tickRunCount (sendPacket initialLoRaState seq prio) times).1.queues prio = [] →
      (tickRunCount (sendPacket initialLoRaState seq prio) times).2 = MAX_RETRIES ∧
      (tickRunCount (sendPacket initialLoRaState seq prio) times).1.transmitErrorCount = 1) := by
  have hstart : SolePacketInv prio (sendPacket initialLoRaState seq prio) 0 := by
    left
    refine ⟨⟨seq, 0, 0, false⟩, ?_, rfl, ?_, by omega, rfl⟩
    · show (setQueue initialLoRaState prio ([] ++ [⟨seq, 0, 0, false⟩])).queues prio = _
      rw [setQueue_queues_same]
      rfl
    · intro j hj
      show (setQueue initialLoRaState prio ([] ++ [⟨seq, 0, 0, false⟩])).queues j = []
      rw [setQueue_queues_other _ _ _ _ hj]
      rfl
  have main : ∀ (ts : List Nat) (p : LoRaState × Nat),
      SolePacketInv prio p.1 p.2 →
      SolePacketInv prio
        (ts.foldl (fun p now =>
          let r := processQueue p.1 now true
          (r.1, p.2 + if r.2 then 1 else 0)) p).1
        (ts.foldl (fun p now =>
          let r := processQueue p.1 now true
          (r.1, p.2 + if r.2 then 1 else 0)) p).2 := by
    intro ts
    induction ts with
    | nil => exact fun p h => h
    | cons now rest ih =>
      intro p h
      exact ih _ (processQueue_single_step prio p.1 p.2 now h)
  have hfin := main times (sendPacket initialLoRaState seq prio, 0) hstart
  rcases hfin with ⟨qp, hq, hatt, hothers, hn, herr⟩ | ⟨hall, hn, herr⟩
  · refine ⟨hn, fun hempty => ?_⟩
    have hcontra : ([qp] : List QueuedPacket) = [] := by
      rw [← hq]
      exact hempty
    simp at hcontra
  · exact ⟨le_of_eq hn, fun _ => ⟨hn, herr⟩⟩

/-- Witness for `retry_bound_exactly_three`: sequence 42 at priority level
2, ticks at 0, 3000, 6000, 9000 ms — the packet is transmitted exactly 3
times, then dropped with `transmitErrorCount = 1`. -/
theorem retry_bound_exactly_three_witness :
    (tickRunCount (sendPacket initialLoRaState 42 2) [0, 3000, 6000, 9000]).1.queues 2 = [] ∧
    (tickRunCount (sendPacket initialLoRaState 42 2) [0, 3000, 6000, 9000]).2 = MAX_RETRIES ∧
    (tickRunCount (sendPacket initialLoRaState 42 2) [0, 3000, 6000, 9000]).1.transmitErrorCount = 1 :=
  ⟨by decide,
    ((retry_bound_exactly_three 2 42 [0, 3000, 6000, 9000]).2 (by decide)).1,
    ((retry_bound_exactly_three 2 42 [0, 3000, 6000, 9000]).2 (by decide)).2⟩

end LoRaManager

/-! ## Claim C9 — transceiver-reported transmit failures -/

namespace LoRaManager

/-- One tick whose radio transmit fails, on a state holding a single fresh
packet: the queues are untouched (in particular `transmitAttempts` stays
0) and only `transmitErrorCount` advances. -/
theorem processQueue_failing_step (prio : Fin 5) (st : LoRaState)
    (seq now : Nat) (hq : st.queues prio = [⟨seq, 0, 0, false⟩])
    (hothers : ∀ j, j ≠ prio → st.queues j = []) :
    (processQueue st now false).1.queues = st.queues ∧
    (processQueue st now false).1.transmitErrorCount = st.transmitErrorCount + 1 := by
  have hg : getNextPacket st = some (prio, ⟨seq, 0, 0, false⟩) :=
    getNextPacket_single st prio ⟨seq, 0, 0, false⟩ [] hq hothers
  unfold processQueue
  split
  · rename_i heq
    rw [hg] at heq
    cases heq
  · rename_i i np heq
    rw [hg] at heq
    simp only [Option.some.injEq, Prod.mk.injEq] at heq
    obtain ⟨h1, h2⟩ := heq
    subst h1
    subst h2
    simp only [Bool.false_eq_true, ite_false]
    unfold processQueueTransmit
    rw [if_neg (by simp [MAX_RETRIES]), if_neg (by simp)]
    exact ⟨rfl, rfl⟩

/-- Claim C9 (amended): when the transceiver's transmit primitive reports
failure, `processQueue` does NOT treat it like a failed delivery attempt:
it increments `transmitErrorCount` (once per failing tick) but leaves the
packet's `transmitAttempts` at 0 and the packet in its queue, so a packet
whose every transmit raises a transceiver error is never removed, no
matter how many ticks run — the attempt limit is only ever reached through
successful transmissions followed by ACK timeouts. -/
theorem transceiver_failure_no_attempt (prio : Fin 5) (seq : Nat)
    (times : List Nat) :
    (failingTickRun (sendPacket initialLoRaState seq prio) times).queues prio =
      [⟨seq, 0, 0, false⟩] ∧
    (failingTickRun (sendPacket initialLoRaState seq prio) times).transmitErrorCount =
      times.length := by
  have hq0 : (sendPacket initialLoRaState seq prio).queues prio = [⟨seq, 0, 0, false⟩] := by
    show (setQueue initialLoRaState prio ([] ++ [⟨seq, 0, 0, false⟩])).queues prio = _
    rw [setQueue_queues_same]
    rfl
  have hothers0 : ∀ j, j ≠ prio → (sendPacket initialLoRaState seq prio).queues j = [] := by
    intro j hj
    show (setQueue initialLoRaState prio ([] ++ [⟨seq, 0, 0, false⟩])).queues j = []
    rw [setQueue_queues_other _ _ _ _ hj]
    rfl
  have main : ∀ (ts : List Nat) (st : LoRaState),
      st.queues prio = [⟨seq, 0, 0, false⟩] → (∀ j, j ≠ prio → st.queues j = []) →
      (failingTickRun st ts).queues prio = [⟨seq, 0, 0, false⟩] ∧
      (failingTickRun st ts).transmitErrorCount =
        st.transmitErrorCount + ts.length := by
    intro ts
    induction ts with
    | nil => exact fun st h1 h2 => ⟨h1, rfl⟩
    | cons now rest ih =>
      intro st h1 h2
      have hstep := processQueue_failing_step prio st seq now h1 h2
      have hq1 : (processQueue st now false).1.queues prio = [⟨seq, 0, 0, false⟩] := by
        rw [hstep.1]
        exact h1
      have hothers1 : ∀ j, j ≠ prio → (processQueue st now false).1.queues j = [] := by
        intro j hj
        rw [hstep.1]
        exact h2 j hj
      have hrest := ih (processQueue st now false).1 hq1 hothers1
      refine ⟨hrest.1, ?_⟩
      show (failingTickRun (processQueue st now false).1 rest).transmitErrorCount = _
      rw [hrest.2, hstep.2]
      simp [List.length_cons]
      omega
  have hfin := main times (sendPacket initialLoRaState seq prio) hq0 hothers0
  have herr0 : (sendPacket initialLoRaState seq prio).transmitErrorCount = 0 := rfl
  exact ⟨hfin.1, by rw [hfin.2, herr0]; omega⟩

/-- Counterexample to claim C9 as stated: after four consecutive ticks in
which every transmit raises a transceiver error — more than the configured
maximum of `MAX_RETRIES = 3` attempts — the packet is still queued, its
`transmitAttempts` is still 0 (the failures did not count toward the
attempt limit), and `transmitErrorCount` has grown to 4. -/
theorem transceiver_failure_counterexample :
    (failingTickRun (sendPacket initialLoRaState 42 2) [0, 10, 20, 30]).queues 2 =
      [⟨42, 0, 0, false⟩] ∧
    (failingTickRun (sendPacket initialLoRaState 42 2) [0, 10, 20, 30]).transmitErrorCount = 4 := by
  decide

end LoRaManager

/-! ## Claim C5 — receive-parser resynchronization -/

namespace PacketHandler

/-- A byte that is not `0xAA`, fed to the parser in its initial
sync-seeking state, leaves the parser exactly in the initial state: the
byte is consumed and discarded. -/
theorem seek_mismatch_resets (g : Nat) (hg : g ≠ PACKET_START_BYTE1) :
    processReceivedByte initialRxState g = (initialRxState, false) := by
  unfold processReceivedByte initialRxState PACKET_START_BYTE1
  unfold PACKET_START_BYTE1 at hg
  simp [hg]

set_option maxRecDepth 4000 in
/-- Claim C5 (amended): while seeking the start sync, a byte that does not
continue the two-byte start pattern RESETS the scan — the mismatched byte
itself is discarded and not reconsidered as a possible first sync byte.
Consequently a complete valid frame preceded by a stray byte other than
`0xAA` is still found and emitted (shown here for every such stray byte
before the representative valid frame `exampleFrame`), but a frame whose
start sync begins one byte after a stray `0xAA` is NOT found — see
`stray_start_byte_loses_frame`. -/
theorem resync_after_non_sync_garbage (g : Nat) (hg : g ≠ PACKET_START_BYTE1) :
    (processIncomingData initialRxState (g :: exampleFrame)).2 = true := by
  have h1 := seek_mismatch_resets g hg
  unfold processIncomingData
  rw [List.foldl_cons]
  dsimp only
  rw [h1]
  decide

/-- Witness for `resync_after_non_sync_garbage` with stray byte `0x00`. -/
theorem resync_after_non_sync_garbage_witness :
    (0 : Nat) ≠ PACKET_START_BYTE1 ∧
    (processIncomingData initialRxState (0 :: exampleFrame)).2 = true :=
  ⟨by decide, resync_after_non_sync_garbage 0 (by decide)⟩

set_option maxRecDepth 8000 in
/-- Counterexample to claim C5 as stated: `exampleFrame` is a complete
valid frame — fed alone, the parser emits it — but the stream
`0xAA :: exampleFrame`, which contains that same complete valid frame at
offset 1 (its start sync begins one byte after a stray `0xAA`), produces
no frame at all: the stray `0xAA` starts a partial sync match that
swallows the frame's own first sync byte, and the scan never recovers. -/
theorem stray_start_byte_loses_frame :
    (processIncomingData initialRxState exampleFrame).2 = true ∧
    verifyCRC exampleFrame = true ∧
    (processIncomingData initialRxState (PACKET_START_BYTE1 :: exampleFrame)).2 = false := by
  decide

end PacketHandler

/-! ## Claim C10 — aliased wire type codes and NACK consumption -/

namespace LoRaManager

/-- Claim C10: the wire type codes of `common_types.h` are aliased —
`TELEMETRY = GPS = 0x02`, `CAMERA_THUMB = GPS_DATA = 0x03`,
`ACK = COMMAND_ACK = 0x06`, `NACK = STATUS = 0x07`, `PING = DEBUG = 0x08`
— so the payload category is not determined by the type byte.  In
particular every received valid frame whose type byte is `0x07`
(`STATUS`'s code) is dispatched to the NACK handler, which (for payloads
of at least 3 bytes) clears `waitingForAck` on the first queued packet
whose sequence number matches the frame's first two payload bytes. -/
theorem status_frames_consumed_as_nack :
    (PacketType.TELEMETRY = PacketType.GPS ∧
     PacketType.CAMERA_THUMB = PacketType.GPS_DATA ∧
     PacketType.ACK = PacketType.COMMAND_ACK ∧
     PacketType.NACK = PacketType.STATUS ∧
     PacketType.PING = PacketType.DEBUG) ∧
    (∀ (st : LoRaState) (pk : Packet), pk.type = PacketType.STATUS →
      processIncomingDispatch st pk = handleNackPacket st pk) ∧
    (∀ (seq : Nat) (qp : QueuedPacket) (rest : List QueuedPacket),
      qp.sequenceNumber = seq → qp.waitingForAck = true →
      clearFirstWaiting seq (qp :: rest) =
        { qp with waitingForAck := false } :: rest) := by
  refine ⟨⟨rfl, rfl, rfl, rfl, rfl⟩, ?_, ?_⟩
  · intro st pk hty
    unfold processIncomingDispatch
    rw [if_neg (by rw [hty]; decide), if_pos (by rw [hty]; rfl)]
  · intro seq qp rest h1 h2
    unfold clearFirstWaiting
    simp [matchesAck, h1, h2]

/-- Witness for `status_frames_consumed_as_nack`: a frame produced as
STATUS (type byte `0x07`) whose first two payload bytes spell 77 is
consumed by the NACK handler and clears `waitingForAck` on the in-flight
packet with sequence number 77. -/
theorem status_frames_consumed_as_nack_witness :
    statusFrame77.type = PacketType.STATUS ∧
    processIncomingDispatch inFlight77State statusFrame77 =
      handleNackPacket inFlight77State statusFrame77 ∧
    (processIncomingDispatch inFlight77State statusFrame77).queues 1 =
      [⟨77, 1, 0, false⟩] :=
  ⟨by decide,
    status_frames_consumed_as_nack.2.1 inFlight77State statusFrame77 (by decide),
    by decide⟩

end LoRaManager
